import Mathlib

/-!
Verification development for the asyncslot / qtinter event-loop bridge.

We shallowly embed the core of `_base_events.py` (the
`AsyncSlotBaseEventLoop` tick handler, `run_forever`, `stop`,
`call_soon` / `run_task` eager stepping, the Qt notifier object and the
selectable protocol) and of `_signals.py` (the `asyncsignal` handler).

Stateful Python code becomes explicit state passing over a `LoopState`
record; side effects (Qt `exit` calls, `notify` enqueues, handle runs,
self-pipe writes) are recorded in explicit event traces so that ordering
properties can be stated.  Exceptions become explicit outcome values:
`_run_once` is an external collaborator, so its outcome (normal return,
`AsyncSlotYield`, or an arbitrary `BaseException` identified by a
numeric code) is an input to the tick handler.
-/

namespace AsyncSlot

/-- Outcome of one call to `self._run_once()` (defined in
`asyncio.BaseEventLoop`, external to this repository): it may return
normally, raise `AsyncSlotYield` (the yield control condition raised by
the selectable), or raise any other `BaseException`, identified here by
a numeric code. -/
inductive RunOnceOutcome where
  | ok
  | yieldSignal
  | err (e : Nat)
deriving DecidableEq, Repr

/-- State of an `AsyncSlotBaseEventLoop` object, from the constructor in
`_base_events.py`: `__qt_event_loop` (modelled as a flag: a nested
`QEventLoop` object is held iff running in nested mode),
`__blocked_in_select`, `__run_once_error`, `__call_soon_eagerly`, the
inherited `_stopping` flag, plus the inherited ready queue of handles
(modelled as handle ids) with their cancellation marks and a fresh-id
counter. -/
structure LoopState where
  qtEventLoop : Bool
  blockedInSelect : Bool
  runOnceError : Option Nat
  callSoonEagerly : Bool
  stopping : Bool
  ready : List Nat
  cancelled : List Nat
  nextHandle : Nat
deriving DecidableEq, Repr

/-- Observable actions performed by one invocation of the tick handler
`__process_asyncio_events`, in order. -/
inductive TickEvent where
  | clearBlocked
  | runBatch
  | setBlocked
  | recordError
  | qtExit (code : Nat)
  | notify
deriving DecidableEq, Repr

/-- Embedding of `AsyncSlotBaseEventLoop.__process_asyncio_events`.
Returns the new loop state, the ordered trace of observable actions,
and `some e` iff the handler re-raises exception `e` to its caller
(the attached-mode `raise`). -/
def process_asyncio_events (st : LoopState) (outcome : RunOnceOutcome) :
    LoopState × List TickEvent × Option Nat :=
  -- self.__blocked_in_select = False
  let st1 : LoopState := { st with blockedInSelect := false }
  -- try: self._run_once()
  match outcome with
  | .yieldSignal =>
      -- except AsyncSlotYield: self.__blocked_in_select = True
      ({ st1 with blockedInSelect := true },
       [.clearBlocked, .runBatch, .setBlocked], none)
  | .err e =>
      -- except BaseException as exc: self.__run_once_error = exc
      let st2 : LoopState := { st1 with runOnceError := some e }
      if st2.qtEventLoop then
        -- self.__qt_event_loop.exit(1)
        (st2, [.clearBlocked, .runBatch, .recordError, .qtExit 1], none)
      else
        -- raise
        (st2, [.clearBlocked, .runBatch, .recordError], some e)
  | .ok =>
      if st1.stopping then
        if st1.qtEventLoop then
          -- self.__qt_event_loop.exit(0); return
          (st1, [.clearBlocked, .runBatch, .qtExit 0], none)
        else
          -- ignore stopping request in attached mode; fall through
          (st1, [.clearBlocked, .runBatch, .notify], none)
      else
        -- self.__notifier.notify()
        (st1, [.clearBlocked, .runBatch, .notify], none)

/-- The claim C1 concerns every tick regardless of mode; this helper
counts notifications enqueued by a tick trace. -/
def notifyCount (tr : List TickEvent) : Nat :=
  tr.count TickEvent.notify

/-- C1: every invocation of the tick handler first clears
`blocked_in_select`, then runs exactly one `_run_once` batch; on
`AsyncSlotYield` it sets `blocked_in_select` and enqueues no
notification; on normal completion with no stop requested it enqueues
exactly one notification. -/
theorem tick_clear_batch_yield_requeue (st : LoopState)
    (outcome : RunOnceOutcome) :
    ((process_asyncio_events st outcome).2.1.take 2
        = [TickEvent.clearBlocked, TickEvent.runBatch]) ∧
    ((process_asyncio_events st outcome).2.1.count TickEvent.runBatch = 1) ∧
    (outcome = RunOnceOutcome.yieldSignal →
      (process_asyncio_events st outcome).1.blockedInSelect = true ∧
      notifyCount (process_asyncio_events st outcome).2.1 = 0) ∧
    (outcome = RunOnceOutcome.ok → st.stopping = false →
      notifyCount (process_asyncio_events st outcome).2.1 = 1) := by
  obtain ⟨qt, blk, er, eag, stp, rdy, cnc, nh⟩ := st
  cases outcome <;> cases qt <;> cases stp <;>
    simp [process_asyncio_events, notifyCount]

/-- Concrete instantiation of `tick_clear_batch_yield_requeue`,
discharging its hypotheses at the yield outcome and at the
ok/non-stopping outcome. -/
theorem tick_clear_batch_yield_requeue_witness :
    ((process_asyncio_events
        { qtEventLoop := true, blockedInSelect := true,
          runOnceError := none, callSoonEagerly := false,
          stopping := false, ready := [], cancelled := [],
          nextHandle := 0 }
        RunOnceOutcome.yieldSignal).1.blockedInSelect = true) ∧
    (notifyCount (process_asyncio_events
        { qtEventLoop := true, blockedInSelect := true,
          runOnceError := none, callSoonEagerly := false,
          stopping := false, ready := [], cancelled := [],
          nextHandle := 0 }
        RunOnceOutcome.ok).2.1 = 1) := by
  refine ⟨(tick_clear_batch_yield_requeue _ RunOnceOutcome.yieldSignal).2.2.1
      rfl |>.1, ?_⟩
  exact (tick_clear_batch_yield_requeue _ RunOnceOutcome.ok).2.2.2 rfl rfl

/-- Boolean check that in list `l` the first occurrence of `a` is
followed, strictly later, by an occurrence of `b`. -/
def occursBeforeB {α : Type} [DecidableEq α] : List α → α → α → Bool
  | [], _, _ => false
  | x :: xs, a, b => if x = a then xs.contains b else occursBeforeB xs a b

/-- C2: when the batch raises an exception other than the yield control
condition, the tick handler records it in `__run_once_error`; in nested
mode (a `QEventLoop` object held) it then exits the Qt loop with code 1
and returns normally; in attached mode it re-raises the exception to
its caller and does not touch any Qt loop. -/
theorem tick_fatal_error_propagation (st : LoopState) (e : Nat) :
    ((process_asyncio_events st (RunOnceOutcome.err e)).1.runOnceError
        = some e) ∧
    (st.qtEventLoop = true →
      occursBeforeB (process_asyncio_events st (RunOnceOutcome.err e)).2.1
        TickEvent.recordError (TickEvent.qtExit 1) = true ∧
      (process_asyncio_events st (RunOnceOutcome.err e)).2.2 = none) ∧
    (st.qtEventLoop = false →
      (process_asyncio_events st (RunOnceOutcome.err e)).2.2 = some e ∧
      ∀ c : Nat, TickEvent.qtExit c ∉
        (process_asyncio_events st (RunOnceOutcome.err e)).2.1) := by
  obtain ⟨qt, blk, er, eag, stp, rdy, cnc, nh⟩ := st
  cases qt <;> simp [process_asyncio_events, occursBeforeB, List.contains]

/-- Concrete instantiation of `tick_fatal_error_propagation` in both
modes, discharging its mode hypotheses. -/
theorem tick_fatal_error_propagation_witness :
    ((process_asyncio_events
        { qtEventLoop := true, blockedInSelect := false,
          runOnceError := none, callSoonEagerly := false,
          stopping := false, ready := [], cancelled := [],
          nextHandle := 0 } (RunOnceOutcome.err 7)).2.2 = none) ∧
    ((process_asyncio_events
        { qtEventLoop := false, blockedInSelect := false,
          runOnceError := none, callSoonEagerly := false,
          stopping := false, ready := [], cancelled := [],
          nextHandle := 0 } (RunOnceOutcome.err 7)).2.2 = some 7) := by
  refine ⟨(tick_fatal_error_propagation _ 7).2.1 rfl |>.2, ?_⟩
  exact (tick_fatal_error_propagation _ 7).2.2 rfl |>.1

/-- C3: when the batch completes normally with the stop-request flag
set, a nested bridge exits the Qt loop with code 0 and enqueues no
further notification, while an attached bridge ignores the stop request
and still enqueues exactly one notification. -/
theorem tick_stop_request (st : LoopState) (hstop : st.stopping = true) :
    (st.qtEventLoop = true →
      ((process_asyncio_events st RunOnceOutcome.ok).2.1.count
          (TickEvent.qtExit 0) = 1) ∧
      notifyCount (process_asyncio_events st RunOnceOutcome.ok).2.1 = 0) ∧
    (st.qtEventLoop = false →
      notifyCount (process_asyncio_events st RunOnceOutcome.ok).2.1 = 1 ∧
      ∀ c : Nat, TickEvent.qtExit c ∉
        (process_asyncio_events st RunOnceOutcome.ok).2.1) := by
  obtain ⟨qt, blk, er, eag, stp, rdy, cnc, nh⟩ := st
  cases qt <;> cases stp <;>
    simp_all [process_asyncio_events, notifyCount]

/-- Concrete instantiation of `tick_stop_request` in both modes,
discharging its hypotheses. -/
theorem tick_stop_request_witness :
    (notifyCount (process_asyncio_events
        { qtEventLoop := true, blockedInSelect := false,
          runOnceError := none, callSoonEagerly := false,
          stopping := true, ready := [], cancelled := [],
          nextHandle := 0 } RunOnceOutcome.ok).2.1 = 0) ∧
    (notifyCount (process_asyncio_events
        { qtEventLoop := false, blockedInSelect := false,
          runOnceError := none, callSoonEagerly := false,
          stopping := true, ready := [], cancelled := [],
          nextHandle := 0 } RunOnceOutcome.ok).2.1 = 1) := by
  refine ⟨(tick_stop_request _ rfl).1 rfl |>.2, ?_⟩
  exact (tick_stop_request _ rfl).2 rfl |>.1

/-- Result of a `run_forever` call: normal return, the `RuntimeError`
raised when no `QCoreApplication` instance exists, the re-raised stored
fatal error, or the `RuntimeError` raised when the Qt loop exited with
a non-zero code and no error was stored (the foreign-loop-exited
error), or the exception raised by `__enter__` itself. -/
inductive RunForeverResult where
  | ok
  | notInitialized
  | enterFailed
  | fatal (e : Nat)
  | foreignLoopExited (code : Nat)
deriving DecidableEq, Repr

/-- Observable outcome of `run_forever`: the result, whether the
`__exit__` cleanup of the `with self:` block ran, and the values of
`__run_once_error` and `__qt_event_loop` after the call. -/
structure RunForeverOut where
  result : RunForeverResult
  exitRan : Bool
  finalRunOnceError : Option Nat
  finalQtEventLoop : Bool
deriving DecidableEq, Repr

/-- Embedding of `AsyncSlotBaseEventLoop.run_forever`.  The Qt
`exec()` call runs the foreign loop, during which ticks may store a
fatal error; its observable result is therefore an input: the exit
code `execExitCode` and the value `errAfterExec` of
`__run_once_error` when `exec()` returns.  `appExists` models whether
`QCoreApplication.instance()` is non-null and `enterSucceeds` whether
`self.__enter__()` succeeds (it raises if the loop is closed or
already running). -/
def run_forever (appExists enterSucceeds : Bool) (execExitCode : Nat)
    (errAfterExec : Option Nat) : RunForeverOut :=
  if appExists = false then
    -- raise RuntimeError before entering; no cleanup to run
    { result := .notInitialized, exitRan := false,
      finalRunOnceError := none, finalQtEventLoop := false }
  else if enterSucceeds = false then
    -- `with self:` raises from __enter__; body and __exit__ skipped
    { result := .enterFailed, exitRan := false,
      finalRunOnceError := none, finalQtEventLoop := false }
  else
    -- try: __qt_event_loop = QEventLoop(); exit_code = exec()
    let result :=
      if execExitCode = 0 then RunForeverResult.ok
      else
        match errAfterExec with
        | some e => RunForeverResult.fatal e
        | none => RunForeverResult.foreignLoopExited execExitCode
    -- finally: __run_once_error = None; __qt_event_loop = None
    -- then the `with` statement runs self.__exit__
    { result := result, exitRan := true,
      finalRunOnceError := none, finalQtEventLoop := false }

/-- C4: a `run_forever` call whose `enter()` succeeds returns normally
on Qt exit code 0, re-raises the stored fatal error on a non-zero exit
code with an error recorded, and raises the foreign-loop-exited error
on a non-zero exit code with no error recorded; in all three outcomes
the `exit()` cleanup runs and the stored fatal error is cleared. -/
theorem run_forever_outcomes (execExitCode : Nat)
    (errAfterExec : Option Nat) :
    ((run_forever true true execExitCode errAfterExec).exitRan = true) ∧
    ((run_forever true true execExitCode errAfterExec).finalRunOnceError
        = none) ∧
    (execExitCode = 0 →
      (run_forever true true execExitCode errAfterExec).result
        = RunForeverResult.ok) ∧
    (execExitCode ≠ 0 → ∀ e : Nat, errAfterExec = some e →
      (run_forever true true execExitCode errAfterExec).result
        = RunForeverResult.fatal e) ∧
    (execExitCode ≠ 0 → errAfterExec = none →
      (run_forever true true execExitCode errAfterExec).result
        = RunForeverResult.foreignLoopExited execExitCode) := by
  cases errAfterExec <;>
    by_cases h : execExitCode = 0 <;>
    simp_all [run_forever]

/-- Concrete instantiation of `run_forever_outcomes`, discharging the
exit-code and stored-error hypotheses: exit code 2 with stored error 7
re-raises the fatal error and still runs cleanup. -/
theorem run_forever_outcomes_witness :
    ((run_forever true true 2 (some 7)).result
        = RunForeverResult.fatal 7) ∧
    ((run_forever true true 2 (some 7)).exitRan = true) ∧
    ((run_forever true true 2 (some 7)).finalRunOnceError = none) := by
  refine ⟨(run_forever_outcomes 2 (some 7)).2.2.2.1 (by decide) 7 rfl,
    (run_forever_outcomes 2 (some 7)).1, (run_forever_outcomes 2 (some 7)).2.1⟩

/-- Observable actions performed by one call to `stop()`. -/
inductive StopEvent where
  | writeToSelf
  | superStop
deriving DecidableEq, Repr

/-- Embedding of `AsyncSlotBaseEventLoop.stop`: if
`__blocked_in_select`, write to the self-pipe first, then delegate to
`BaseEventLoop.stop()`, which sets `_stopping = True`. -/
def stop (st : LoopState) : LoopState × List StopEvent :=
  if st.blockedInSelect then
    ({ st with stopping := true }, [.writeToSelf, .superStop])
  else
    ({ st with stopping := true }, [.superStop])

/-- C6: calling `stop()` while `blocked_in_select` forces a self-pipe
wake-up before delegating to the base scheduler's stop bookkeeping, and
a nested bridge's next successful tick then observes the stop request
and exits the Qt loop with code 0. -/
theorem stop_wakes_blocked_select (st : LoopState)
    (hblk : st.blockedInSelect = true) :
    ((stop st).2 = [StopEvent.writeToSelf, StopEvent.superStop]) ∧
    ((stop st).1.stopping = true) ∧
    (st.qtEventLoop = true →
      ((process_asyncio_events (stop st).1 RunOnceOutcome.ok).2.1.count
          (TickEvent.qtExit 0) = 1) ∧
      notifyCount
        (process_asyncio_events (stop st).1 RunOnceOutcome.ok).2.1 = 0) := by
  obtain ⟨qt, blk, er, eag, stp, rdy, cnc, nh⟩ := st
  cases qt <;> simp_all [stop, process_asyncio_events, notifyCount]

/-- Concrete instantiation of `stop_wakes_blocked_select`, discharging
its `blocked_in_select` and nested-mode hypotheses. -/
theorem stop_wakes_blocked_select_witness :
    ((stop
        { qtEventLoop := true, blockedInSelect := true,
          runOnceError := none, callSoonEagerly := false,
          stopping := false, ready := [], cancelled := [],
          nextHandle := 0 }).2
      = [StopEvent.writeToSelf, StopEvent.superStop]) ∧
    (notifyCount (process_asyncio_events
        (stop
          { qtEventLoop := true, blockedInSelect := true,
            runOnceError := none, callSoonEagerly := false,
            stopping := false, ready := [], cancelled := [],
            nextHandle := 0 }).1 RunOnceOutcome.ok).2.1 = 0) := by
  refine ⟨(stop_wakes_blocked_select _ rfl).1, ?_⟩
  exact (stop_wakes_blocked_select _ rfl).2.2 rfl |>.2

/-- Observable actions performed by one call to `call_soon`, in order. -/
inductive CSEvent where
  | writeToSelf
  | enqueueHandle
  | clearEagerFlag
  | leaveTask
  | runHandle
  | cancelHandle
  | enterTask
deriving DecidableEq, Repr

/-- Embedding of `AsyncSlotBaseEventLoop.call_soon`.  The inherited
`super().call_soon` appends a fresh handle to the ready queue.
`hasCurrentTask` models whether `asyncio.tasks.current_task(self)` is
non-null, and `handleRaises` whether `handle._run()` raises a
propagating exception (`SystemExit`/`KeyboardInterrupt`; ordinary
callback exceptions are swallowed by `Handle._run` itself).  Returns
the new state, the ordered event trace, and whether the call raises to
its caller. -/
def call_soon (st : LoopState) (hasCurrentTask handleRaises : Bool) :
    LoopState × List CSEvent × Bool :=
  -- if self.__blocked_in_select: self._write_to_self()
  let tr0 : List CSEvent :=
    if st.blockedInSelect then [.writeToSelf] else []
  -- handle = super().call_soon(...)
  let h := st.nextHandle
  let st1 : LoopState :=
    { st with ready := st.ready ++ [h], nextHandle := h + 1 }
  let tr1 := tr0 ++ [CSEvent.enqueueHandle]
  if st1.callSoonEagerly then
    -- self.__call_soon_eagerly = False
    let st2 : LoopState := { st1 with callSoonEagerly := false }
    -- if current_task is not None: _leave_task(...)
    -- try: handle._run()
    let tr2 := tr1 ++ [CSEvent.clearEagerFlag]
      ++ (if hasCurrentTask then [CSEvent.leaveTask] else [])
      ++ [CSEvent.runHandle]
    -- finally: handle.cancel(); if current_task: _enter_task(...)
    let st3 : LoopState := { st2 with cancelled := st2.cancelled ++ [h] }
    let tr3 := tr2 ++ [CSEvent.cancelHandle]
      ++ (if hasCurrentTask then [CSEvent.enterTask] else [])
    (st3, tr3, handleRaises)
  else
    (st1, tr1, false)

/-- Embedding of `AsyncSlotBaseEventLoop.run_task`: set
`__call_soon_eagerly`, call `create_task` (which reaches `call_soon`
unless task construction itself raises first, modelled by
`createRaisesEarly`), and reset the flag in the `finally` clause. -/
def run_task (st : LoopState) (hasCurrentTask handleRaises : Bool)
    (createRaisesEarly : Bool) : LoopState × List CSEvent × Bool :=
  let st1 : LoopState := { st with callSoonEagerly := true }
  if createRaisesEarly then
    -- finally: self.__call_soon_eagerly = False (then the exception
    -- propagates to the caller of run_task)
    ({ st1 with callSoonEagerly := false }, [], true)
  else
    let out := call_soon st1 hasCurrentTask handleRaises
    ({ out.1 with callSoonEagerly := false }, out.2.1, out.2.2)

/-- The handles whose callbacks `BaseEventLoop._run_once` would invoke
from the ready queue: cancelled handles are skipped. -/
def processReady (st : LoopState) : List Nat :=
  st.ready.filter (fun h => !(st.cancelled.contains h))

/-- C5: a `call_soon` made while the eager flag is set clears the flag
before the callback runs, runs the new callback synchronously exactly
once before returning, suspends the caller's current task before the
nested step and resumes it afterward, cancels the queued handle after
the eager run, and the ready queue never invokes the eagerly run
handle again; moreover `run_task` leaves the flag cleared on every
path, including when task construction raises before `call_soon`. -/
theorem call_soon_eager_mode (st : LoopState)
    (hasCurrentTask handleRaises c : Bool)
    (heager : st.callSoonEagerly = true) :
    ((call_soon st hasCurrentTask handleRaises).1.callSoonEagerly
        = false) ∧
    (occursBeforeB (call_soon st hasCurrentTask handleRaises).2.1
        CSEvent.clearEagerFlag CSEvent.runHandle = true) ∧
    ((call_soon st hasCurrentTask handleRaises).2.1.count
        CSEvent.runHandle = 1) ∧
    (hasCurrentTask = true →
      occursBeforeB (call_soon st hasCurrentTask handleRaises).2.1
        CSEvent.leaveTask CSEvent.runHandle = true ∧
      occursBeforeB (call_soon st hasCurrentTask handleRaises).2.1
        CSEvent.runHandle CSEvent.enterTask = true) ∧
    (occursBeforeB (call_soon st hasCurrentTask handleRaises).2.1
        CSEvent.runHandle CSEvent.cancelHandle = true) ∧
    (st.nextHandle ∉
      processReady (call_soon st hasCurrentTask handleRaises).1) ∧
    ((run_task st hasCurrentTask handleRaises c).1.callSoonEagerly
        = false) := by
  obtain ⟨qt, blk, er, eag, stp, rdy, cnc, nh⟩ := st
  subst heager
  cases hasCurrentTask <;> cases blk <;> cases c <;>
    simp [call_soon, run_task, occursBeforeB, processReady,
      List.contains, List.mem_filter]

/-- Concrete instantiation of `call_soon_eager_mode`, discharging the
eager-flag and current-task hypotheses. -/
theorem call_soon_eager_mode_witness :
    (occursBeforeB (call_soon
        { qtEventLoop := false, blockedInSelect := false,
          runOnceError := none, callSoonEagerly := true,
          stopping := false, ready := [5], cancelled := [],
          nextHandle := 6 } true false).2.1
      CSEvent.leaveTask CSEvent.runHandle = true) ∧
    ((6 : Nat) ∉ processReady (call_soon
        { qtEventLoop := false, blockedInSelect := false,
          runOnceError := none, callSoonEagerly := true,
          stopping := false, ready := [5], cancelled := [],
          nextHandle := 6 } true false).1) := by
  refine ⟨(call_soon_eager_mode _ true false false rfl).2.2.2.1 rfl |>.1, ?_⟩
  exact (call_soon_eager_mode _ true false false rfl).2.2.2.2.2.1

/-- C10: even when the eagerly run callback raises a propagating
exception, the `finally` clause still cancels the queued handle and
re-enters the caller's suspended task (when one existed) before the
exception propagates out of `call_soon`; the handle is marked
cancelled so the ready queue never runs it. -/
theorem call_soon_eager_exception_path (st : LoopState)
    (hasCurrentTask : Bool) (heager : st.callSoonEagerly = true) :
    ((call_soon st hasCurrentTask true).2.2 = true) ∧
    (CSEvent.cancelHandle ∈ (call_soon st hasCurrentTask true).2.1) ∧
    (occursBeforeB (call_soon st hasCurrentTask true).2.1
        CSEvent.runHandle CSEvent.cancelHandle = true) ∧
    (hasCurrentTask = true →
      occursBeforeB (call_soon st hasCurrentTask true).2.1
        CSEvent.runHandle CSEvent.enterTask = true) ∧
    (st.nextHandle ∈ (call_soon st hasCurrentTask true).1.cancelled) := by
  obtain ⟨qt, blk, er, eag, stp, rdy, cnc, nh⟩ := st
  subst heager
  cases hasCurrentTask <;> cases blk <;>
    simp [call_soon, occursBeforeB, List.contains]

/-- Concrete instantiation of `call_soon_eager_exception_path`,
discharging its eager-flag and current-task hypotheses. -/
theorem call_soon_eager_exception_path_witness :
    ((call_soon
        { qtEventLoop := false, blockedInSelect := true,
          runOnceError := none, callSoonEagerly := true,
          stopping := false, ready := [], cancelled := [],
          nextHandle := 0 } true true).2.2 = true) ∧
    (occursBeforeB (call_soon
        { qtEventLoop := false, blockedInSelect := true,
          runOnceError := none, callSoonEagerly := true,
          stopping := false, ready := [], cancelled := [],
          nextHandle := 0 } true true).2.1
      CSEvent.runHandle CSEvent.enterTask = true) := by
  refine ⟨(call_soon_eager_exception_path _ true rfl).1, ?_⟩
  exact (call_soon_eager_exception_path _ true rfl).2.2.2.1 rfl

/-- State of a `_AsyncSlotNotifierObject`: whether the `_callback`
reference is still held and whether the queued signal connection is
still in place. -/
structure NotifierState where
  hasCallback : Bool
  connected : Bool
deriving DecidableEq, Repr

/-- Observable actions of the notifier object's methods. -/
inductive NotifierEvent where
  | invokeCallback
  | disconnectSignal
deriving DecidableEq, Repr

/-- Embedding of `_AsyncSlotNotifierObject._on_notified`: if the
callback reference is present it is invoked; otherwise the
notification is silently dropped (the `else` branch is `pass`, so
nothing is invoked and nothing is raised). -/
def on_notified (st : NotifierState) : List NotifierEvent :=
  if st.hasCallback then [.invokeCallback] else []

/-- Embedding of `_AsyncSlotNotifierObject.close`: if the callback
reference is present, disconnect the signal and clear it; otherwise do
nothing. -/
def notifier_close (st : NotifierState) :
    NotifierState × List NotifierEvent :=
  if st.hasCallback then
    ({ hasCallback := false, connected := false }, [.disconnectSignal])
  else
    (st, [])

/-- C9: after `close()` the notifier holds no callback, a late
notification delivered to the dispatch slot invokes nothing (and the
slot body has no raising path in that branch), and a second `close()`
is a no-op that changes nothing and performs no action. -/
theorem notifier_late_notification_dropped (st : NotifierState) :
    ((notifier_close st).1.hasCallback = false) ∧
    (on_notified (notifier_close st).1 = []) ∧
    (notifier_close (notifier_close st).1 = ((notifier_close st).1, [])) := by
  obtain ⟨cb, cn⟩ := st
  cases cb <;> simp [notifier_close, on_notified]

/-- State visible to the `asyncsignal` handler closure: the future
(`none` while not done, `some r` once a result is set) and whether the
closure still holds the `slot` reference. -/
structure SignalState where
  fut : Option (List Nat)
  slotRef : Bool
deriving DecidableEq, Repr

/-- Embedding of `copy_signal_arguments` from `_signals.py`: under
PyQt (`hasQVariant = true`) each argument is round-tripped through
`QVariant`, which yields an equal value-copy; under PySide the
arguments are returned as-is.  Signal argument values are modelled as
naturals, so the value-copy is the identity on each element. -/
def copy_signal_arguments (hasQVariant : Bool) (args : List Nat) :
    List Nat :=
  if hasQVariant then args.map (fun a => a) else args

/-- Embedding of the `handler` closure inside `asyncsignal`: if the
future is not done, set its result to the (possibly copied) argument
tuple; in every case drop the `slot` reference. -/
def signal_handler (hasQVariant : Bool) (st : SignalState)
    (args : List Nat) : SignalState :=
  let st1 : SignalState :=
    if st.fut.isSome then st
    else { st with fut := some (copy_signal_arguments hasQVariant args) }
  { st1 with slotRef := false }

/-- Once the future holds a result, any further handler invocation
leaves it unchanged. -/
theorem signal_handler_preserves_result (hasQVariant : Bool)
    (l : List (List Nat)) (st : SignalState) (r : List Nat)
    (h : st.fut = some r) :
    (l.foldl (signal_handler hasQVariant) st).fut = some r := by
  induction l generalizing st with
  | nil => exact h
  | cons a l ih =>
      refine ih _ ?_
      simp [signal_handler, h]

/-- C7: across any sequence of handler invocations, only the first one
sets the future's result — to its argument tuple passed through
`copy_signal_arguments` — and every later invocation leaves the result
unchanged, so the result is set at most once. -/
theorem signal_first_invocation_wins (hasQVariant : Bool)
    (st : SignalState) (args firstArgs : List Nat)
    (rest : List (List Nat)) :
    (st.fut = none →
      (signal_handler hasQVariant st args).fut
        = some (copy_signal_arguments hasQVariant args)) ∧
    (∀ r : List Nat, st.fut = some r →
      (signal_handler hasQVariant st args).fut = some r) ∧
    (((firstArgs :: rest).foldl (signal_handler hasQVariant)
        { fut := none, slotRef := true }).fut
      = some (copy_signal_arguments hasQVariant firstArgs)) := by
  refine ⟨fun h => by simp [signal_handler, h],
    fun r h => by simp [signal_handler, h], ?_⟩
  refine signal_handler_preserves_result hasQVariant rest _ _ ?_
  simp [signal_handler]

/-- Concrete instantiation of `signal_first_invocation_wins`: firing
with `(7)` then `(8)` resolves the future with `(7)` and the second
firing leaves it unchanged. -/
theorem signal_first_invocation_wins_witness :
    ((signal_handler true { fut := none, slotRef := true } [7]).fut
        = some [7]) ∧
    (([[7], [8]].foldl (signal_handler true)
        { fut := none, slotRef := true }).fut = some [7]) := by
  refine ⟨(signal_first_invocation_wins true
      { fut := none, slotRef := true } [7] [7] []).1 rfl, ?_⟩
  exact (signal_first_invocation_wins true
      { fut := none, slotRef := true } [0] [7] [[8]]).2.2

/-- States of a selectable, from the `AsyncSlotSelectable` protocol
docstring in `_base_events.py`. -/
inductive SelectableState where
  | IDLE
  | BUSY
  | CLOSED
deriving DecidableEq, Repr

/-- Environment observed by one `select` call: the (key, mask) pairs
readily available at the synchronous check, and whether a notifier is
currently installed. -/
structure SelectEnv where
  readyKeys : List (Nat × Nat)
  notifierInstalled : Bool
deriving DecidableEq, Repr

/-- How one `select` call completes: an immediate synchronous return
of the ready keys, the `AsyncSlotYield` control signal with the real
wait handed to the background worker, or an inline blocking select
(performed when no notifier is installed). -/
inductive SelectOutcome where
  | returned (keys : List (Nat × Nat))
  | yielded
  | blockedReturned (keys : List (Nat × Nat))
deriving DecidableEq, Repr

/-- Modelled from the spec: the concrete Selectable implementation is
not in the sources — `AsyncSlotSelectable` in `_base_events.py` is a
protocol whose methods raise `NotImplementedError`.  Per the protocol
docstring and spec section 4.1: a call on a CLOSED selectable fails
with `ClosedError`; if the timeout is zero or some readiness is
already available, the check is performed synchronously and the call
returns immediately, staying IDLE; otherwise, with a notifier
installed, the selectable transitions IDLE to BUSY and raises the
yield control signal; with no notifier installed it performs a normal
blocking select inline (its result is the input `blockingResult`) and
stays IDLE.  `select` is only specified from IDLE; a BUSY call is
modelled as an error.  The timeout is `none` for an unbounded wait, in
line with the Python `Optional[float]` parameter. -/
def Selectable.select (st : SelectableState) (timeout : Option ℚ)
    (env : SelectEnv) (blockingResult : List (Nat × Nat)) :
    Except Unit (SelectableState × SelectOutcome) :=
  match st with
  | .CLOSED => .error ()
  | .BUSY => .error ()
  | .IDLE =>
      if timeout = some 0 ∨ env.readyKeys ≠ [] then
        .ok (.IDLE, .returned env.readyKeys)
      else if env.notifierInstalled then
        .ok (.BUSY, .yielded)
      else
        .ok (.IDLE, .blockedReturned blockingResult)

/-- C8: a `select` call with timeout zero on an IDLE selectable
performs the readiness check synchronously and returns immediately —
possibly with an empty list — never blocks, never yields, and leaves
the selectable in the IDLE state. -/
theorem select_zero_timeout_nonblocking (env : SelectEnv)
    (blockingResult : List (Nat × Nat)) :
    Selectable.select SelectableState.IDLE (some 0) env blockingResult
      = Except.ok (SelectableState.IDLE,
          SelectOutcome.returned env.readyKeys) := by
  simp [Selectable.select]

end AsyncSlot
